import Mathlib

/-!
Verification of the `merge-io` duplex adapter (`src/lib.rs`).

The crate defines `MergeIO<R, W>`, holding one `AsyncRead` value and one
`AsyncWrite` value, and implements both traits by forwarding each poll
method to the matching inner field.  We embed the poll-style interfaces
shallowly: a readable capability is a record of state-passing functions
over an abstract reader-state type, a writable capability likewise, and
every `MergeIo` operation is the literal translation of the corresponding
method body in `src/lib.rs`.
-/

namespace MergeSpec

/-- A byte buffer (`&mut [u8]` / `&[u8]` contents). -/
abbrev Buf : Type := List Nat

instance {α β : Type} [DecidableEq α] [DecidableEq β] : DecidableEq (Except α β) := fun x y =>
  match x, y with
  | Except.ok a, Except.ok b =>
    if h : a = b then isTrue (by rw [h]) else isFalse (by simp [h])
  | Except.error a, Except.error b =>
    if h : a = b then isTrue (by rw [h]) else isFalse (by simp [h])
  | Except.ok _, Except.error _ => isFalse (by simp)
  | Except.error _, Except.ok _ => isFalse (by simp)

/-- `std::task::Poll`: either ready with a value or pending. -/
inductive Poll (α : Type) : Type where
  | ready (a : α) : Poll α
  | pending : Poll α
deriving DecidableEq, Repr

/-- `futures::io::Initializer` (nightly `AsyncRead` buffer-initialization hint). -/
inductive Initializer : Type where
  | zeroing : Initializer
  | nop : Initializer
deriving DecidableEq, Repr

/-- The readable-stream capability (`futures::io::AsyncRead`), embedded as a
record of state-passing functions over reader state `ρ`, with context type `κ`
and error type `ε`.  `poll_read` fills the buffer, so it returns the new buffer
contents alongside the new state and the poll result. -/
structure AsyncReadImpl (κ ε ρ : Type) : Type where
  initializer : ρ → Initializer
  poll_read : ρ → κ → Buf → ρ × Buf × Poll (Except ε Nat)
  poll_read_vectored : ρ → κ → List Buf → ρ × List Buf × Poll (Except ε Nat)

/-- The writable-stream capability (`futures::io::AsyncWrite`), embedded as a
record of state-passing functions over writer state `ω`. -/
structure AsyncWriteImpl (κ ε ω : Type) : Type where
  poll_write : ω → κ → Buf → ω × Poll (Except ε Nat)
  poll_write_vectored : ω → κ → List Buf → ω × Poll (Except ε Nat)
  poll_flush : ω → κ → ω × Poll (Except ε Unit)
  poll_close : ω → κ → ω × Poll (Except ε Unit)

/-- `MergeIO<R, W>`: owns exactly one reader state and one writer state
(`src/lib.rs` lines 53-60). -/
structure MergeIo (ρ ω : Type) : Type where
  reader : ρ
  writer : ω
deriving DecidableEq, Repr

variable {κ ε ρ ω : Type}

/-- `MergeIO::new(reader, writer)` (`src/lib.rs` lines 69-71). -/
def MergeIo.new (reader : ρ) (writer : ω) : MergeIo ρ ω :=
  { reader := reader, writer := writer }

/-- `MergeIO::into_inner(self) -> (R, W)` (`src/lib.rs` lines 94-96). -/
def MergeIo.into_inner (s : MergeIo ρ ω) : ρ × ω :=
  (s.reader, s.writer)

/-- `<MergeIO as AsyncRead>::initializer`: `self.reader.initializer()`
(`src/lib.rs` lines 105-107). -/
def MergeIo.initializer (R : AsyncReadImpl κ ε ρ) (s : MergeIo ρ ω) : Initializer :=
  R.initializer s.reader

/-- `<MergeIO as AsyncRead>::poll_read`: delegates to
`AsyncRead::poll_read(Pin::new(&mut self.get_mut().reader), cx, buf)`
(`src/lib.rs` lines 109-115).  The writer field is carried over untouched. -/
def MergeIo.poll_read (R : AsyncReadImpl κ ε ρ) (s : MergeIo ρ ω) (cx : κ)
    (buf : Buf) : MergeIo ρ ω × Buf × Poll (Except ε Nat) :=
  let out := R.poll_read s.reader cx buf
  ({ reader := out.1, writer := s.writer }, out.2.1, out.2.2)

/-- `<MergeIO as AsyncRead>::poll_read_vectored` (`src/lib.rs` lines 117-123). -/
def MergeIo.poll_read_vectored (R : AsyncReadImpl κ ε ρ) (s : MergeIo ρ ω) (cx : κ)
    (bufs : List Buf) : MergeIo ρ ω × List Buf × Poll (Except ε Nat) :=
  let out := R.poll_read_vectored s.reader cx bufs
  ({ reader := out.1, writer := s.writer }, out.2.1, out.2.2)

/-- `<MergeIO as AsyncWrite>::poll_write`: delegates to
`AsyncWrite::poll_write(Pin::new(&mut self.get_mut().writer), cx, buf)`
(`src/lib.rs` lines 131-133).  The reader field is carried over untouched. -/
def MergeIo.poll_write (W : AsyncWriteImpl κ ε ω) (s : MergeIo ρ ω) (cx : κ)
    (buf : Buf) : MergeIo ρ ω × Poll (Except ε Nat) :=
  let out := W.poll_write s.writer cx buf
  ({ reader := s.reader, writer := out.1 }, out.2)

/-- `<MergeIO as AsyncWrite>::poll_write_vectored` (`src/lib.rs` lines 135-141). -/
def MergeIo.poll_write_vectored (W : AsyncWriteImpl κ ε ω) (s : MergeIo ρ ω) (cx : κ)
    (bufs : List Buf) : MergeIo ρ ω × Poll (Except ε Nat) :=
  let out := W.poll_write_vectored s.writer cx bufs
  ({ reader := s.reader, writer := out.1 }, out.2)

/-- `<MergeIO as AsyncWrite>::poll_flush` (`src/lib.rs` lines 143-145). -/
def MergeIo.poll_flush (W : AsyncWriteImpl κ ε ω) (s : MergeIo ρ ω) (cx : κ) :
    MergeIo ρ ω × Poll (Except ε Unit) :=
  let out := W.poll_flush s.writer cx
  ({ reader := s.reader, writer := out.1 }, out.2)

/-- `<MergeIO as AsyncWrite>::poll_close` (`src/lib.rs` lines 147-149). -/
def MergeIo.poll_close (W : AsyncWriteImpl κ ε ω) (s : MergeIo ρ ω) (cx : κ) :
    MergeIo ρ ω × Poll (Except ε Unit) :=
  let out := W.poll_close s.writer cx
  ({ reader := s.reader, writer := out.1 }, out.2)

/-- One call through the adapter's unified bidirectional interface, with the
caller's context and input buffers. -/
inductive Op (κ : Type) : Type where
  | read (cx : κ) (buf : Buf) : Op κ
  | read_vectored (cx : κ) (bufs : List Buf) : Op κ
  | write (cx : κ) (buf : Buf) : Op κ
  | write_vectored (cx : κ) (bufs : List Buf) : Op κ
  | flush (cx : κ) : Op κ
  | close (cx : κ) : Op κ
deriving DecidableEq, Repr

/-- What the caller observes from one call: the poll result, and for reads
also the filled buffer contents. -/
inductive Outcome (ε : Type) : Type where
  | readOut (buf : Buf) (p : Poll (Except ε Nat)) : Outcome ε
  | readVecOut (bufs : List Buf) (p : Poll (Except ε Nat)) : Outcome ε
  | writeOut (p : Poll (Except ε Nat)) : Outcome ε
  | writeVecOut (p : Poll (Except ε Nat)) : Outcome ε
  | flushOut (p : Poll (Except ε Unit)) : Outcome ε
  | closeOut (p : Poll (Except ε Unit)) : Outcome ε
deriving DecidableEq, Repr

/-- Dispatch one call to the adapter's matching poll method. -/
def applyOp (R : AsyncReadImpl κ ε ρ) (W : AsyncWriteImpl κ ε ω)
    (s : MergeIo ρ ω) : Op κ → MergeIo ρ ω × Outcome ε
  | Op.read cx buf =>
    let out := MergeIo.poll_read R s cx buf
    (out.1, Outcome.readOut out.2.1 out.2.2)
  | Op.read_vectored cx bufs =>
    let out := MergeIo.poll_read_vectored R s cx bufs
    (out.1, Outcome.readVecOut out.2.1 out.2.2)
  | Op.write cx buf =>
    let out := MergeIo.poll_write W s cx buf
    (out.1, Outcome.writeOut out.2)
  | Op.write_vectored cx bufs =>
    let out := MergeIo.poll_write_vectored W s cx bufs
    (out.1, Outcome.writeVecOut out.2)
  | Op.flush cx =>
    let out := MergeIo.poll_flush W s cx
    (out.1, Outcome.flushOut out.2)
  | Op.close cx =>
    let out := MergeIo.poll_close W s cx
    (out.1, Outcome.closeOut out.2)

/-- Run a sequence of calls through the adapter, collecting the outcomes. -/
def run (R : AsyncReadImpl κ ε ρ) (W : AsyncWriteImpl κ ε ω) :
    List (Op κ) → MergeIo ρ ω → MergeIo ρ ω × List (Outcome ε)
  | [], s => (s, [])
  | op :: ops, s =>
    let step := applyOp R W s op
    let rest := run R W ops step.1
    (rest.1, step.2 :: rest.2)

/-- Whether a call belongs to the read channel. -/
def Op.isRead : Op κ → Bool
  | Op.read _ _ => true
  | Op.read_vectored _ _ => true
  | _ => false

/-- Whether an observation belongs to the read channel. -/
def Outcome.isRead : Outcome ε → Bool
  | Outcome.readOut _ _ => true
  | Outcome.readVecOut _ _ => true
  | _ => false

/-- Direct, unadapted use of the reader: the read calls of the sequence are
applied straight to the reader state; calls addressed to the write channel
correspond to no operation on the reader. -/
def runReaderOps (R : AsyncReadImpl κ ε ρ) :
    List (Op κ) → ρ → ρ × List (Outcome ε)
  | [], r => (r, [])
  | Op.read cx buf :: ops, r =>
    let out := R.poll_read r cx buf
    let rest := runReaderOps R ops out.1
    (rest.1, Outcome.readOut out.2.1 out.2.2 :: rest.2)
  | Op.read_vectored cx bufs :: ops, r =>
    let out := R.poll_read_vectored r cx bufs
    let rest := runReaderOps R ops out.1
    (rest.1, Outcome.readVecOut out.2.1 out.2.2 :: rest.2)
  | _ :: ops, r => runReaderOps R ops r

/-- Direct, unadapted use of the writer: the write/flush/close calls of the
sequence are applied straight to the writer state; read-channel calls
correspond to no operation on the writer. -/
def runWriterOps (W : AsyncWriteImpl κ ε ω) :
    List (Op κ) → ω → ω × List (Outcome ε)
  | [], w => (w, [])
  | Op.write cx buf :: ops, w =>
    let out := W.poll_write w cx buf
    let rest := runWriterOps W ops out.1
    (rest.1, Outcome.writeOut out.2 :: rest.2)
  | Op.write_vectored cx bufs :: ops, w =>
    let out := W.poll_write_vectored w cx bufs
    let rest := runWriterOps W ops out.1
    (rest.1, Outcome.writeVecOut out.2 :: rest.2)
  | Op.flush cx :: ops, w =>
    let out := W.poll_flush w cx
    let rest := runWriterOps W ops out.1
    (rest.1, Outcome.flushOut out.2 :: rest.2)
  | Op.close cx :: ops, w =>
    let out := W.poll_close w cx
    let rest := runWriterOps W ops out.1
    (rest.1, Outcome.closeOut out.2 :: rest.2)
  | _ :: ops, w => runWriterOps W ops w

/-- `std::io::Cursor<Vec<u8>>`: a position into an underlying byte vector
(the reader used by the crate's doc example and integration test). -/
structure Cursor : Type where
  pos : Nat
  data : List Nat
deriving DecidableEq, Repr

/-- One sequential read of the cursor: copies bytes from the current position
into the front of `buf`, leaving the rest of the buffer unchanged, and
advances the position; returns the new cursor, the filled buffer and the
byte count. -/
def Cursor.readStep (c : Cursor) (buf : Buf) : Cursor × Buf × Nat :=
  let n := min buf.length (c.data.length - c.pos)
  ({ pos := c.pos + n, data := c.data },
    (c.data.drop c.pos).take n ++ buf.drop n, n)

/-- Vectored read of the cursor: fills the buffers in order, threading the
position, and sums the byte counts. -/
def Cursor.readVecStep (c : Cursor) : List Buf → Cursor × List Buf × Nat
  | [] => (c, [], 0)
  | b :: bs =>
    let st := c.readStep b
    let rest := st.1.readVecStep bs
    (rest.1, st.2.1 :: rest.2.1, st.2.2 + rest.2.2)

/-- The readable capability of a `Cursor`: always ready, never fails. -/
def cursorRead (ε : Type) : AsyncReadImpl Unit ε Cursor where
  initializer := fun _ => Initializer.zeroing
  poll_read := fun c _ buf =>
    let st := c.readStep buf
    (st.1, st.2.1, Poll.ready (Except.ok st.2.2))
  poll_read_vectored := fun c _ bufs =>
    let st := c.readVecStep bufs
    (st.1, st.2.1, Poll.ready (Except.ok st.2.2))

/-- The writable capability of a `Vec<u8>` sink: appends the bytes, always
ready, never fails; flush and close are no-ops that succeed. -/
def vecWrite (ε : Type) : AsyncWriteImpl Unit ε (List Nat) where
  poll_write := fun w _ buf => (w ++ buf, Poll.ready (Except.ok buf.length))
  poll_write_vectored := fun w _ bufs =>
    (w ++ bufs.flatten, Poll.ready (Except.ok bufs.flatten.length))
  poll_flush := fun w _ => (w, Poll.ready (Except.ok ()))
  poll_close := fun w _ => (w, Poll.ready (Except.ok ()))

/-- A reader whose poll methods always fail with error `7`, counting calls in
its state.  Used to exercise the error pass-through path. -/
def errRead : AsyncReadImpl Unit Nat Nat where
  initializer := fun _ => Initializer.zeroing
  poll_read := fun r _ buf => (r + 1, buf, Poll.ready (Except.error 7))
  poll_read_vectored := fun r _ bufs => (r + 1, bufs, Poll.ready (Except.error 7))

/-- A writer whose poll methods always fail with error `9`, counting calls in
its state. -/
def errWrite : AsyncWriteImpl Unit Nat Nat where
  poll_write := fun w _ _ => (w + 1, Poll.ready (Except.error 9))
  poll_write_vectored := fun w _ _ => (w + 1, Poll.ready (Except.error 9))
  poll_flush := fun w _ => (w + 1, Poll.ready (Except.error 9))
  poll_close := fun w _ => (w + 1, Poll.ready (Except.error 9))

/-- A legitimate readable capability that is never ready: every poll method
returns `Poll.pending` (for instance one half of an idle pipe). -/
def pendingRead : AsyncReadImpl Unit Unit Unit where
  initializer := fun _ => Initializer.nop
  poll_read := fun r _ buf => (r, buf, Poll.pending)
  poll_read_vectored := fun r _ bufs => (r, bufs, Poll.pending)

/-- Tags naming the reader's poll methods, for call logging. -/
inductive RCall : Type where
  | read : RCall
  | read_vectored : RCall
deriving DecidableEq, Repr

/-- Tags naming the writer's poll methods, for call logging. -/
inductive WCall : Type where
  | write : WCall
  | write_vectored : WCall
  | flush : WCall
  | close : WCall
deriving DecidableEq, Repr

/-- Wrap a readable capability so that every poll method also appends its own
tag to a call log carried alongside the state.  The adapter is polymorphic in
the reader, so running it over the wrapped capability counts exactly the
inner invocations the adapter performs. -/
def logRead (R : AsyncReadImpl κ ε ρ) : AsyncReadImpl κ ε (ρ × List RCall) where
  initializer := fun s => R.initializer s.1
  poll_read := fun s cx buf =>
    let out := R.poll_read s.1 cx buf
    ((out.1, s.2 ++ [RCall.read]), out.2.1, out.2.2)
  poll_read_vectored := fun s cx bufs =>
    let out := R.poll_read_vectored s.1 cx bufs
    ((out.1, s.2 ++ [RCall.read_vectored]), out.2.1, out.2.2)

/-- Wrap a writable capability so that every poll method also appends its own
tag to a call log carried alongside the state. -/
def logWrite (W : AsyncWriteImpl κ ε ω) : AsyncWriteImpl κ ε (ω × List WCall) where
  poll_write := fun s cx buf =>
    let out := W.poll_write s.1 cx buf
    ((out.1, s.2 ++ [WCall.write]), out.2)
  poll_write_vectored := fun s cx bufs =>
    let out := W.poll_write_vectored s.1 cx bufs
    ((out.1, s.2 ++ [WCall.write_vectored]), out.2)
  poll_flush := fun s cx =>
    let out := W.poll_flush s.1 cx
    ((out.1, s.2 ++ [WCall.flush]), out.2)
  poll_close := fun s cx =>
    let out := W.poll_close s.1 cx
    ((out.1, s.2 ++ [WCall.close]), out.2)

@[simp] theorem Op.isRead_read (cx : κ) (buf : Buf) : (Op.read cx buf).isRead = true := rfl

@[simp] theorem Op.isRead_read_vec (cx : κ) (bufs : List Buf) :
    (Op.read_vectored cx bufs).isRead = true := rfl

@[simp] theorem Op.isRead_write (cx : κ) (buf : Buf) : (Op.write cx buf).isRead = false := rfl

@[simp] theorem Op.isRead_write_vec (cx : κ) (bufs : List Buf) :
    (Op.write_vectored cx bufs).isRead = false := rfl

@[simp] theorem Op.isRead_flush (cx : κ) : (Op.flush cx : Op κ).isRead = false := rfl

@[simp] theorem Op.isRead_close (cx : κ) : (Op.close cx : Op κ).isRead = false := rfl

@[simp] theorem Outcome.isRead_readOut (buf : Buf) (p : Poll (Except ε Nat)) :
    (Outcome.readOut buf p).isRead = true := rfl

@[simp] theorem Outcome.isRead_readVecOut (bufs : List Buf) (p : Poll (Except ε Nat)) :
    (Outcome.readVecOut bufs p).isRead = true := rfl

@[simp] theorem Outcome.isRead_writeOut (p : Poll (Except ε Nat)) :
    (Outcome.writeOut p).isRead = false := rfl

@[simp] theorem Outcome.isRead_writeVecOut (p : Poll (Except ε Nat)) :
    (Outcome.writeVecOut p).isRead = false := rfl

@[simp] theorem Outcome.isRead_flushOut (p : Poll (Except ε Unit)) :
    (Outcome.flushOut p).isRead = false := rfl

@[simp] theorem Outcome.isRead_closeOut (p : Poll (Except ε Unit)) :
    (Outcome.closeOut p).isRead = false := rfl

/-- Running a sequence through the adapter evolves the reader exactly as
direct use of the reader does, and the read-channel observations coincide. -/
theorem run_reader_proj (R : AsyncReadImpl κ ε ρ) (W : AsyncWriteImpl κ ε ω) :
    ∀ (ops : List (Op κ)) (s : MergeIo ρ ω),
      (run R W ops s).1.reader = (runReaderOps R ops s.reader).1 ∧
      (run R W ops s).2.filter Outcome.isRead = (runReaderOps R ops s.reader).2 := by
  intro ops
  induction ops with
  | nil => intro s; exact ⟨rfl, rfl⟩
  | cons op ops ih =>
    intro s
    cases op <;>
      simp [run, applyOp, MergeIo.poll_read, MergeIo.poll_read_vectored,
        MergeIo.poll_write, MergeIo.poll_write_vectored, MergeIo.poll_flush,
        MergeIo.poll_close, runReaderOps, List.filter_cons,
        (ih _).1, (ih _).2]

/-- Running a sequence through the adapter evolves the writer exactly as
direct use of the writer does, and the write-channel observations coincide. -/
theorem run_writer_proj (R : AsyncReadImpl κ ε ρ) (W : AsyncWriteImpl κ ε ω) :
    ∀ (ops : List (Op κ)) (s : MergeIo ρ ω),
      (run R W ops s).1.writer = (runWriterOps W ops s.writer).1 ∧
      (run R W ops s).2.filter (fun o => ! Outcome.isRead o) =
        (runWriterOps W ops s.writer).2 := by
  intro ops
  induction ops with
  | nil => intro s; exact ⟨rfl, rfl⟩
  | cons op ops ih =>
    intro s
    cases op <;>
      simp [run, applyOp, MergeIo.poll_read, MergeIo.poll_read_vectored,
        MergeIo.poll_write, MergeIo.poll_write_vectored, MergeIo.poll_flush,
        MergeIo.poll_close, runWriterOps, List.filter_cons,
        (ih _).1, (ih _).2]

/-- Direct use of the reader ignores the calls addressed to the write
channel: only the read projection of the sequence matters. -/
theorem runReaderOps_filter (R : AsyncReadImpl κ ε ρ) :
    ∀ (ops : List (Op κ)) (r : ρ),
      runReaderOps R (ops.filter Op.isRead) r = runReaderOps R ops r := by
  intro ops
  induction ops with
  | nil => intro r; rfl
  | cons op ops ih =>
    intro r
    cases op <;> simp [runReaderOps, List.filter_cons, ih]

/-- Direct use of the writer ignores the calls addressed to the read
channel: only the write projection of the sequence matters. -/
theorem runWriterOps_filter (W : AsyncWriteImpl κ ε ω) :
    ∀ (ops : List (Op κ)) (w : ω),
      runWriterOps W (ops.filter (fun op => ! Op.isRead op)) w =
        runWriterOps W ops w := by
  intro ops
  induction ops with
  | nil => intro w; rfl
  | cons op ops ih =>
    intro w
    cases op <;> simp [runWriterOps, List.filter_cons, ih]

/-- C1: for every reader state, context and buffer, the adapter's read
operations (`poll_read`, `poll_read_vectored`, and the `initializer` hook)
return exactly the result of invoking the same operation on the owned
reader — same readiness, same byte count, same error, same filled buffer —
the reader evolves exactly as the inner call evolves it, and no further
state is kept between calls (the new adapter state is the inner call's new
reader next to the untouched writer). -/
theorem read_ops_delegate (R : AsyncReadImpl κ ε ρ) (s : MergeIo ρ ω)
    (cx : κ) (buf : Buf) (bufs : List Buf) :
    MergeIo.poll_read R s cx buf =
      ({ reader := (R.poll_read s.reader cx buf).1, writer := s.writer },
        (R.poll_read s.reader cx buf).2.1,
        (R.poll_read s.reader cx buf).2.2) ∧
    MergeIo.poll_read_vectored R s cx bufs =
      ({ reader := (R.poll_read_vectored s.reader cx bufs).1, writer := s.writer },
        (R.poll_read_vectored s.reader cx bufs).2.1,
        (R.poll_read_vectored s.reader cx bufs).2.2) ∧
    MergeIo.initializer R s = R.initializer s.reader :=
  ⟨rfl, rfl, rfl⟩

/-- C2: for every writer state, context and input, the adapter's write
operations (`poll_write`, `poll_write_vectored`, `poll_flush`, `poll_close`)
return exactly the result of invoking the same operation on the owned
writer — same byte count, readiness and error — and the writer evolves
exactly as the inner call evolves it, next to the untouched reader. -/
theorem write_ops_delegate (W : AsyncWriteImpl κ ε ω) (s : MergeIo ρ ω)
    (cx : κ) (buf : Buf) (bufs : List Buf) :
    MergeIo.poll_write W s cx buf =
      ({ reader := s.reader, writer := (W.poll_write s.writer cx buf).1 },
        (W.poll_write s.writer cx buf).2) ∧
    MergeIo.poll_write_vectored W s cx bufs =
      ({ reader := s.reader, writer := (W.poll_write_vectored s.writer cx bufs).1 },
        (W.poll_write_vectored s.writer cx bufs).2) ∧
    MergeIo.poll_flush W s cx =
      ({ reader := s.reader, writer := (W.poll_flush s.writer cx).1 },
        (W.poll_flush s.writer cx).2) ∧
    MergeIo.poll_close W s cx =
      ({ reader := s.reader, writer := (W.poll_close s.writer cx).1 },
        (W.poll_close s.writer cx).2) :=
  ⟨rfl, rfl, rfl, rfl⟩

/-- C4: `into_inner` is a total function (no failure mode), consumes the
adapter, and returns the owned reader and writer in that order, each in
exactly the state the preceding sequence of read/write operations left it —
no flush, close or shutdown is interposed, so the parts of the adapter
reached after an arbitrary operation sequence come back verbatim. -/
theorem into_inner_returns_parts (R : AsyncReadImpl κ ε ρ)
    (W : AsyncWriteImpl κ ε ω) (s : MergeIo ρ ω) (ops : List (Op κ)) :
    MergeIo.into_inner s = (s.reader, s.writer) ∧
    MergeIo.into_inner (run R W ops s).1 =
      ((run R W ops s).1.reader, (run R W ops s).1.writer) :=
  ⟨rfl, rfl⟩

/-- C7: suspension relay — for each of the six forwarded poll operations,
the adapter's result is `Poll.pending` exactly when the inner capability's
corresponding operation, invoked at the same inner state with the very
context `cx` the caller handed to the adapter, is `Poll.pending`; the poll
component of the adapter's answer is literally the inner one, so wake-up
registration happens solely inside the inner capability. -/
theorem pending_relay (R : AsyncReadImpl κ ε ρ) (W : AsyncWriteImpl κ ε ω)
    (s : MergeIo ρ ω) (cx : κ) (buf : Buf) (bufs : List Buf) :
    ((MergeIo.poll_read R s cx buf).2.2 = Poll.pending ↔
      (R.poll_read s.reader cx buf).2.2 = Poll.pending) ∧
    ((MergeIo.poll_read_vectored R s cx bufs).2.2 = Poll.pending ↔
      (R.poll_read_vectored s.reader cx bufs).2.2 = Poll.pending) ∧
    ((MergeIo.poll_write W s cx buf).2 = Poll.pending ↔
      (W.poll_write s.writer cx buf).2 = Poll.pending) ∧
    ((MergeIo.poll_write_vectored W s cx bufs).2 = Poll.pending ↔
      (W.poll_write_vectored s.writer cx bufs).2 = Poll.pending) ∧
    ((MergeIo.poll_flush W s cx).2 = Poll.pending ↔
      (W.poll_flush s.writer cx).2 = Poll.pending) ∧
    ((MergeIo.poll_close W s cx).2 = Poll.pending ↔
      (W.poll_close s.writer cx).2 = Poll.pending) ∧
    (MergeIo.poll_read R s cx buf).2.2 = (R.poll_read s.reader cx buf).2.2 ∧
    (MergeIo.poll_read_vectored R s cx bufs).2.2 =
      (R.poll_read_vectored s.reader cx bufs).2.2 ∧
    (MergeIo.poll_write W s cx buf).2 = (W.poll_write s.writer cx buf).2 ∧
    (MergeIo.poll_write_vectored W s cx bufs).2 =
      (W.poll_write_vectored s.writer cx bufs).2 ∧
    (MergeIo.poll_flush W s cx).2 = (W.poll_flush s.writer cx).2 ∧
    (MergeIo.poll_close W s cx).2 = (W.poll_close s.writer cx).2 :=
  ⟨Iff.rfl, Iff.rfl, Iff.rfl, Iff.rfl, Iff.rfl, Iff.rfl,
    rfl, rfl, rfl, rfl, rfl, rfl⟩

/-- C3: the read and write channels are independent.  Every read operation
leaves the owned writer untouched and every write/flush/close operation
leaves the owned reader untouched; over any interleaved sequence the writer
evolves as if only the write-channel calls had happened and the reader as if
only the read-channel calls had happened; and two interleavings with the
same read-channel calls and the same write-channel calls (here `ops₁` and
`ops₂`) produce identical read observations and identical write
observations. -/
theorem read_write_independent (R : AsyncReadImpl κ ε ρ)
    (W : AsyncWriteImpl κ ε ω) (s : MergeIo ρ ω) (cx : κ) (buf : Buf)
    (bufs : List Buf) (ops ops₁ ops₂ : List (Op κ))
    (hr : ops₁.filter Op.isRead = ops₂.filter Op.isRead)
    (hw : ops₁.filter (fun op => ! Op.isRead op) =
      ops₂.filter (fun op => ! Op.isRead op)) :
    (MergeIo.poll_read R s cx buf).1.writer = s.writer ∧
    (MergeIo.poll_read_vectored R s cx bufs).1.writer = s.writer ∧
    (MergeIo.poll_write W s cx buf).1.reader = s.reader ∧
    (MergeIo.poll_write_vectored W s cx bufs).1.reader = s.reader ∧
    (MergeIo.poll_flush W s cx).1.reader = s.reader ∧
    (MergeIo.poll_close W s cx).1.reader = s.reader ∧
    (run R W ops s).1.reader = (runReaderOps R ops s.reader).1 ∧
    (run R W ops s).1.writer = (runWriterOps W ops s.writer).1 ∧
    (run R W ops₁ s).2.filter Outcome.isRead =
      (run R W ops₂ s).2.filter Outcome.isRead ∧
    (run R W ops₁ s).2.filter (fun o => ! Outcome.isRead o) =
      (run R W ops₂ s).2.filter (fun o => ! Outcome.isRead o) := by
  refine ⟨rfl, rfl, rfl, rfl, rfl, rfl,
    (run_reader_proj R W ops s).1, (run_writer_proj R W ops s).1, ?_, ?_⟩
  · calc (run R W ops₁ s).2.filter Outcome.isRead
        = (runReaderOps R ops₁ s.reader).2 := (run_reader_proj R W ops₁ s).2
      _ = (runReaderOps R (ops₁.filter Op.isRead) s.reader).2 := by
          rw [runReaderOps_filter]
      _ = (runReaderOps R (ops₂.filter Op.isRead) s.reader).2 := by rw [hr]
      _ = (runReaderOps R ops₂ s.reader).2 := by rw [runReaderOps_filter]
      _ = (run R W ops₂ s).2.filter Outcome.isRead :=
          ((run_reader_proj R W ops₂ s).2).symm
  · calc (run R W ops₁ s).2.filter (fun o => ! Outcome.isRead o)
        = (runWriterOps W ops₁ s.writer).2 := (run_writer_proj R W ops₁ s).2
      _ = (runWriterOps W (ops₁.filter (fun op => ! Op.isRead op)) s.writer).2 := by
          rw [runWriterOps_filter]
      _ = (runWriterOps W (ops₂.filter (fun op => ! Op.isRead op)) s.writer).2 := by
          rw [hw]
      _ = (runWriterOps W ops₂ s.writer).2 := by rw [runWriterOps_filter]
      _ = (run R W ops₂ s).2.filter (fun o => ! Outcome.isRead o) :=
          ((run_writer_proj R W ops₂ s).2).symm

/-- C5: decomposition round-trip.  `into_inner (new r w) = (r, w)`, and for
every operation sequence driven through the adapter, decomposing afterwards
returns exactly the reader obtained by direct, unadapted use of `r` under
the read-channel calls and the writer obtained by direct, unadapted use of
`w` under the write-channel calls; the observations seen through the
adapter likewise coincide with the direct ones, channel by channel. -/
theorem decomposition_round_trip (R : AsyncReadImpl κ ε ρ)
    (W : AsyncWriteImpl κ ε ω) (r : ρ) (w : ω) (ops : List (Op κ)) :
    MergeIo.into_inner (MergeIo.new r w) = (r, w) ∧
    MergeIo.into_inner (run R W ops (MergeIo.new r w)).1 =
      ((runReaderOps R ops r).1, (runWriterOps W ops w).1) ∧
    (run R W ops (MergeIo.new r w)).2.filter Outcome.isRead =
      (runReaderOps R ops r).2 ∧
    (run R W ops (MergeIo.new r w)).2.filter (fun o => ! Outcome.isRead o) =
      (runWriterOps W ops w).2 := by
  refine ⟨rfl, ?_, (run_reader_proj R W ops (MergeIo.new r w)).2,
    (run_writer_proj R W ops (MergeIo.new r w)).2⟩
  have hr := (run_reader_proj R W ops (MergeIo.new r w)).1
  have hw := (run_writer_proj R W ops (MergeIo.new r w)).1
  simp [MergeIo.into_inner, MergeIo.new] at hr hw ⊢
  rw [hr, hw]
  exact ⟨rfl, rfl⟩

/-- C9: the adapter introduces no nondeterminism — every operation's
outcome is a function solely of the matching inner capability's state and
the call's arguments.  Two adapter states with equal readers give equal
read results, equal filled buffers and equal evolved readers however their
writers differ, and two adapter states with equal writers give equal write
results and equal evolved writers however their readers differ. -/
theorem adapter_deterministic (R : AsyncReadImpl κ ε ρ)
    (W : AsyncWriteImpl κ ε ω) (s₁ s₂ s₃ s₄ : MergeIo ρ ω) (cx : κ)
    (buf : Buf) (bufs : List Buf)
    (hr : s₁.reader = s₂.reader) (hw : s₃.writer = s₄.writer) :
    (MergeIo.poll_read R s₁ cx buf).2 = (MergeIo.poll_read R s₂ cx buf).2 ∧
    (MergeIo.poll_read R s₁ cx buf).1.reader =
      (MergeIo.poll_read R s₂ cx buf).1.reader ∧
    (MergeIo.poll_read_vectored R s₁ cx bufs).2 =
      (MergeIo.poll_read_vectored R s₂ cx bufs).2 ∧
    (MergeIo.poll_read_vectored R s₁ cx bufs).1.reader =
      (MergeIo.poll_read_vectored R s₂ cx bufs).1.reader ∧
    MergeIo.initializer R s₁ = MergeIo.initializer R s₂ ∧
    (MergeIo.poll_write W s₃ cx buf).2 = (MergeIo.poll_write W s₄ cx buf).2 ∧
    (MergeIo.poll_write W s₃ cx buf).1.writer =
      (MergeIo.poll_write W s₄ cx buf).1.writer ∧
    (MergeIo.poll_write_vectored W s₃ cx bufs).2 =
      (MergeIo.poll_write_vectored W s₄ cx bufs).2 ∧
    (MergeIo.poll_write_vectored W s₃ cx bufs).1.writer =
      (MergeIo.poll_write_vectored W s₄ cx bufs).1.writer ∧
    (MergeIo.poll_flush W s₃ cx).2 = (MergeIo.poll_flush W s₄ cx).2 ∧
    (MergeIo.poll_flush W s₃ cx).1.writer =
      (MergeIo.poll_flush W s₄ cx).1.writer ∧
    (MergeIo.poll_close W s₃ cx).2 = (MergeIo.poll_close W s₄ cx).2 ∧
    (MergeIo.poll_close W s₃ cx).1.writer =
      (MergeIo.poll_close W s₄ cx).1.writer := by
  simp [MergeIo.poll_read, MergeIo.poll_read_vectored, MergeIo.initializer,
    MergeIo.poll_write, MergeIo.poll_write_vectored, MergeIo.poll_flush,
    MergeIo.poll_close, hr, hw]

/-- C10: exactly-once forwarding.  Running each adapter operation over
capabilities wrapped to log every inner method call shows that one call of
`poll_read` appends exactly one `read` tag to the reader's log and nothing
to the writer's log, and correspondingly for the other five operations: the
matching inner method is invoked exactly once and no other inner method is
invoked. -/
theorem exactly_once_forwarding (R : AsyncReadImpl κ ε ρ)
    (W : AsyncWriteImpl κ ε ω)
    (s : MergeIo (ρ × List RCall) (ω × List WCall)) (cx : κ) (buf : Buf)
    (bufs : List Buf) :
    (MergeIo.poll_read (logRead R) s cx buf).1.reader.2 =
      s.reader.2 ++ [RCall.read] ∧
    (MergeIo.poll_read (logRead R) s cx buf).1.writer.2 = s.writer.2 ∧
    (MergeIo.poll_read_vectored (logRead R) s cx bufs).1.reader.2 =
      s.reader.2 ++ [RCall.read_vectored] ∧
    (MergeIo.poll_read_vectored (logRead R) s cx bufs).1.writer.2 =
      s.writer.2 ∧
    (MergeIo.poll_write (logWrite W) s cx buf).1.writer.2 =
      s.writer.2 ++ [WCall.write] ∧
    (MergeIo.poll_write (logWrite W) s cx buf).1.reader.2 = s.reader.2 ∧
    (MergeIo.poll_write_vectored (logWrite W) s cx bufs).1.writer.2 =
      s.writer.2 ++ [WCall.write_vectored] ∧
    (MergeIo.poll_write_vectored (logWrite W) s cx bufs).1.reader.2 =
      s.reader.2 ∧
    (MergeIo.poll_flush (logWrite W) s cx).1.writer.2 =
      s.writer.2 ++ [WCall.flush] ∧
    (MergeIo.poll_flush (logWrite W) s cx).1.reader.2 = s.reader.2 ∧
    (MergeIo.poll_close (logWrite W) s cx).1.writer.2 =
      s.writer.2 ++ [WCall.close] ∧
    (MergeIo.poll_close (logWrite W) s cx).1.reader.2 = s.reader.2 :=
  ⟨rfl, rfl, rfl, rfl, rfl, rfl, rfl, rfl, rfl, rfl, rfl, rfl⟩

/-- C6: error pass-through and channel atomicity.  A failing inner read is
surfaced with exactly the inner error, leaving the writer untouched; a
subsequent write behaves exactly as it would have without the failed read,
and symmetrically for a failing inner write; and a retry of the failed read
goes straight to the reader in its post-failure state, so the adapter stays
usable. -/
theorem error_passthrough (R : AsyncReadImpl κ ε ρ) (W : AsyncWriteImpl κ ε ω)
    (s : MergeIo ρ ω) (cx cx' : κ) (buf buf' : Buf) (r' : ρ) (w' : ω)
    (b' : Buf) (e e' : ε)
    (hre : R.poll_read s.reader cx buf = (r', b', Poll.ready (Except.error e)))
    (hwe : W.poll_write s.writer cx' buf' = (w', Poll.ready (Except.error e'))) :
    MergeIo.poll_read R s cx buf =
      ({ reader := r', writer := s.writer }, b', Poll.ready (Except.error e)) ∧
    (MergeIo.poll_write W (MergeIo.poll_read R s cx buf).1 cx' buf').2 =
      (MergeIo.poll_write W s cx' buf').2 ∧
    (MergeIo.poll_write W (MergeIo.poll_read R s cx buf).1 cx' buf').1.writer =
      (MergeIo.poll_write W s cx' buf').1.writer ∧
    MergeIo.poll_write W s cx' buf' =
      ({ reader := s.reader, writer := w' }, Poll.ready (Except.error e')) ∧
    (MergeIo.poll_read R (MergeIo.poll_write W s cx' buf').1 cx buf).2 =
      (MergeIo.poll_read R s cx buf).2 ∧
    (MergeIo.poll_read R (MergeIo.poll_write W s cx' buf').1 cx buf).1.reader =
      (MergeIo.poll_read R s cx buf).1.reader ∧
    (MergeIo.poll_read R (MergeIo.poll_read R s cx buf).1 cx buf).2 =
      (R.poll_read r' cx buf).2 := by
  simp [MergeIo.poll_read, MergeIo.poll_write, hre, hwe]

/-- Witness for C6: the always-failing reader and writer at concrete states.
The read error `7` comes back unchanged with the writer untouched. -/
theorem error_passthrough_witness :
    errRead.poll_read 0 () [5] = (1, [5], Poll.ready (Except.error 7)) ∧
    errWrite.poll_write 0 () [6] = (1, Poll.ready (Except.error 9)) ∧
    MergeIo.poll_read errRead (MergeIo.new 0 0) () [5] =
      ({ reader := 1, writer := 0 }, [5], Poll.ready (Except.error 7)) :=
  ⟨by decide, by decide,
    (error_passthrough errRead errWrite (MergeIo.new 0 0) () () [5] [6]
      1 1 [5] 7 9 (by decide) (by decide)).1⟩

/-- C8 as stated is false on the code: the adapter forwards vectored
operations verbatim and adds no zero-buffer special case, so over a
legitimate capability that is never ready, a vectored read with an empty
buffer list is `pending`, not an immediate zero-byte success. -/
theorem empty_vectored_not_immediate :
    (MergeIo.poll_read_vectored pendingRead (MergeIo.new () ()) () []).2.2 =
      Poll.pending ∧
    (MergeIo.poll_read_vectored pendingRead (MergeIo.new () ()) () []).2.2 ≠
      Poll.ready (Except.ok 0) := by
  exact ⟨rfl, by decide⟩

/-- C8 (amended): an empty-list vectored read or write through the adapter
completes immediately with zero bytes and no error exactly when the inner
capability's own vectored operation does; the adapter adds nothing of its
own.  The standard cursor reader and vector writer complete that way,
making the amended hypothesis realistic. -/
theorem empty_vectored_forwarded (R : AsyncReadImpl κ ε ρ)
    (W : AsyncWriteImpl κ ε ω) (s : MergeIo ρ ω) (cx : κ)
    (hr : (R.poll_read_vectored s.reader cx []).2.2 = Poll.ready (Except.ok 0))
    (hw : (W.poll_write_vectored s.writer cx []).2 = Poll.ready (Except.ok 0)) :
    (MergeIo.poll_read_vectored R s cx []).2.2 = Poll.ready (Except.ok 0) ∧
    (MergeIo.poll_write_vectored W s cx []).2 = Poll.ready (Except.ok 0) :=
  ⟨hr, hw⟩

/-- Witness for the amended C8: over the cursor reader and vector writer,
both zero-buffer vectored operations complete immediately with zero. -/
theorem empty_vectored_forwarded_witness :
    ((cursorRead Unit).poll_read_vectored (Cursor.mk 0 [1, 2]) () []).2.2 =
      Poll.ready (Except.ok 0) ∧
    ((vecWrite Unit).poll_write_vectored [] () []).2 =
      Poll.ready (Except.ok 0) ∧
    (MergeIo.poll_read_vectored (cursorRead Unit)
        (MergeIo.new (Cursor.mk 0 [1, 2]) ([] : List Nat)) () []).2.2 =
      Poll.ready (Except.ok 0) :=
  ⟨by decide, by decide,
    (empty_vectored_forwarded (cursorRead Unit) (vecWrite Unit)
      (MergeIo.new (Cursor.mk 0 [1, 2]) ([] : List Nat)) () (by decide) (by decide)).1⟩

/-- Witness for C3: interleaving a write before a read produces exactly the
read observations of interleaving it after, over the cursor reader and
vector writer preloaded as in the crate's own example. -/
theorem read_write_independent_witness :
    ([Op.write () [10], Op.read () [0, 0]].filter Op.isRead =
      [Op.read () [0, 0], Op.write () [10]].filter Op.isRead) ∧
    ([Op.write () [10], Op.read () [0, 0]].filter (fun op => ! Op.isRead op) =
      [Op.read () [0, 0], Op.write () [10]].filter (fun op => ! Op.isRead op)) ∧
    (run (cursorRead Unit) (vecWrite Unit)
        [Op.write () [10], Op.read () [0, 0]]
        (MergeIo.new (Cursor.mk 0 [1, 2, 3, 4]) [])).2.filter Outcome.isRead =
      (run (cursorRead Unit) (vecWrite Unit)
        [Op.read () [0, 0], Op.write () [10]]
        (MergeIo.new (Cursor.mk 0 [1, 2, 3, 4]) [])).2.filter Outcome.isRead :=
  ⟨by decide, by decide,
    (read_write_independent (cursorRead Unit) (vecWrite Unit)
      (MergeIo.new (Cursor.mk 0 [1, 2, 3, 4]) []) () [0, 0] [[0]] []
      [Op.write () [10], Op.read () [0, 0]]
      [Op.read () [0, 0], Op.write () [10]]
      (by decide) (by decide)).2.2.2.2.2.2.2.2.1⟩

/-- Witness for C9: two adapter states sharing the reader but with different
writers yield the same read result. -/
theorem adapter_deterministic_witness :
    (MergeIo.new (Cursor.mk 0 [1, 2]) ([] : List Nat)).reader =
      (MergeIo.new (Cursor.mk 0 [1, 2]) [9]).reader ∧
    (MergeIo.new (Cursor.mk 0 [1, 2]) ([] : List Nat)).writer =
      (MergeIo.new (Cursor.mk 5 [7]) []).writer ∧
    (MergeIo.poll_read (cursorRead Unit)
        (MergeIo.new (Cursor.mk 0 [1, 2]) ([] : List Nat)) () [0]).2 =
      (MergeIo.poll_read (cursorRead Unit)
        (MergeIo.new (Cursor.mk 0 [1, 2]) [9]) () [0]).2 :=
  ⟨rfl, rfl,
    (adapter_deterministic (cursorRead Unit) (vecWrite Unit)
      (MergeIo.new (Cursor.mk 0 [1, 2]) ([] : List Nat))
      (MergeIo.new (Cursor.mk 0 [1, 2]) [9])
      (MergeIo.new (Cursor.mk 0 [1, 2]) ([] : List Nat))
      (MergeIo.new (Cursor.mk 5 [7]) ([] : List Nat))
      () [0] [[0]] rfl rfl).1⟩

end MergeSpec
